import Mathlib

/-!
Shallow embedding of `hugo-site-manager` (src/main.go): the Site/Theme
store management layer of a Hugo site manager.

Modelling conventions:
* Paths are Lean `String`s.  `joinPath` models Go's `filepath.Join` for a
  directory and a single trailing element.  `filepath.Join(dir, "")`
  cleans to `dir`, which `joinPath` reproduces; path elements are treated
  as atomic components (no `.`/`..` resolution is modelled, none of the
  verified statements depends on it).
* The filesystem is a value `FS`: the set of readable directories (Go's
  `ioutil.ReadDir` succeeds exactly on these) plus a map from file path
  to content.  File contents are either a decodable list of TOML
  key/value string pairs or opaque undecodable bytes (`invalid`).
* External processes (`git clone`, `hugo new`) are an injected capability
  `World.run : Invocation → FS → ExecResult` (success/diagnostics plus
  the filesystem after the process ran), as the programs are opaque
  collaborators of the repository.  `Invocation.workDir = none` models an
  `exec.Cmd` whose `Dir` field is left unset (inherit the process cwd).
* `ioutil.WriteFile` at the store root is modelled as succeeding, and the
  TOML encoder never fails on a struct of plain strings, so the
  corresponding dead error branches of the source are not represented.
* Go's `log` calls are not modelled except that captured stderr passed to
  `log.Error` is recorded in `errorLogs` (it is the error "diagnostic"
  channel of the source).
* Pointer mutation of the caller's `*SiteConfig` is modelled by
  `CreateResult.config`: the value the caller's config object holds when
  `Create` returns (`Site` wraps exactly that value on success).
-/

/-- Models `filepath.Join(dir, name)` for a single trailing element. -/
def joinPath (dir name : String) : String :=
  if name = "" then dir else dir ++ "/" ++ name

/-- Content of a file: decodable TOML key/value pairs, or undecodable bytes. -/
inductive FileContent where
  | kv (pairs : List (String × String))
  | invalid
deriving DecidableEq

/-- A filesystem value: readable directories and files with contents. -/
structure FS where
  dirs : List String
  files : List (String × FileContent)
deriving DecidableEq

/-- `ioutil.ReadDir p` succeeds, i.e. `p` is an existing readable directory. -/
def FS.hasDir (fs : FS) (p : String) : Bool :=
  fs.dirs.contains p

/-- Content of the file at `p`, if a file exists there. -/
def FS.fileAt (fs : FS) (p : String) : Option FileContent :=
  (fs.files.find? (fun q => q.1 == p)).map (fun q => q.2)

/-- `ioutil.WriteFile p c`: create or overwrite the file at `p`. -/
def FS.writeFile (fs : FS) (p : String) (c : FileContent) : FS :=
  { fs with files := (p, c) :: fs.files }

/-- Creation of a directory (effect of an external process). -/
def FS.mkDir (fs : FS) (p : String) : FS :=
  { fs with dirs := p :: fs.dirs }

/-- Delete the file at `p` (no-op when absent). -/
def FS.removeFile (fs : FS) (p : String) : FS :=
  { fs with files := fs.files.filter (fun q => q.1 != p) }

/-- Models `os.Rename(src, joinPath dstDir dstName)`: moves the file when the
source exists and the destination directory exists; otherwise the rename
fails, and the source ignores the returned error, leaving `fs` unchanged. -/
def FS.rename (fs : FS) (src dstDir dstName : String) : FS :=
  match fs.fileAt src with
  | none => fs
  | some content =>
    if fs.hasDir dstDir then
      (fs.removeFile src).writeFile (joinPath dstDir dstName) content
    else fs

/-- An external process invocation: program, arguments, and the `exec.Cmd.Dir`
working directory (`none` = field left unset, inherit the process cwd). -/
structure Invocation where
  program : String
  args : List String
  workDir : Option String
deriving DecidableEq

/-- Result of running an external process: `cmd.Run()`'s error (`none` =
exit status 0), captured stdout and stderr, and the filesystem afterwards. -/
structure ExecResult where
  err : Option String
  stdout : String
  stderr : String
  fs : FS

/-- The outside world: current filesystem and the external-process capability. -/
structure World where
  fs : FS
  run : Invocation → FS → ExecResult

def defaultSiteStorePath : String := "/tmp/sites"

def defaultThemeStorePath : String := "/tmp/themes"

/-- `SiteConfig` from src/main.go.  `ID`, `ThemeURL` and `SitePath` carry the
TOML tag `-` (never persisted); the remaining eight fields are persisted. -/
structure SiteConfig where
  ID : String
  ThemeURL : String
  SitePath : String
  ThemesDir : String
  ContentDir : String
  LayoutDir : String
  PublishDir : String
  BaseURL : String
  LanguageCode : String
  Title : String
  Theme : String
deriving DecidableEq

/-- `Site` wraps exactly one `SiteConfig` (in Go, a pointer to it). -/
structure Site where
  Config : SiteConfig
deriving DecidableEq

/-- `Theme` is an empty marker struct. -/
structure Theme where
deriving DecidableEq

/-- `ThemeStore`: root path plus the name cache `Themes` (the source only
ever writes this cache at construction; `Find`/`Fetch` never read it). -/
structure ThemeStore where
  Themes : List String
  StorePath : String
deriving DecidableEq

/-- `SiteStore`: root path, the (never-populated) `Sites` cache, and the
theme store used to resolve themes. -/
structure SiteStore where
  Sites : List String
  SitePath : String
  ThemeStore : ThemeStore
deriving DecidableEq

/-- A theme store with the default root, as built by `NewThemeStore`. -/
def defaultThemeStore : ThemeStore :=
  { Themes := [], StorePath := defaultThemeStorePath }

/-- A site store with the default root, as built by `NewSiteStore`. -/
def defaultSiteStore : SiteStore :=
  { Sites := [], SitePath := defaultSiteStorePath, ThemeStore := defaultThemeStore }

/-- The TOML encoding of a `SiteConfig`, as its ordered key/value pairs:
exactly the eight fields that carry a TOML key in the source. -/
def encodePairs (c : SiteConfig) : List (String × String) :=
  [("themesDir", c.ThemesDir), ("contentDir", c.ContentDir),
   ("layoutDir", c.LayoutDir), ("publishDir", c.PublishDir),
   ("baseURL", c.BaseURL), ("languageCode", c.LanguageCode),
   ("title", c.Title), ("theme", c.Theme)]

/-- `toml.NewEncoder(..).Encode(config)`: encoding a struct of plain strings
never fails, so the source's dead error branch is not represented. -/
def encodeConfig (c : SiteConfig) : FileContent :=
  .kv (encodePairs c)

/-- First value bound to key `k` (TOML decode of one string field; absent
keys leave the Go zero value `""`). -/
def lookupKV (pairs : List (String × String)) (k : String) : String :=
  ((pairs.find? (fun p => p.1 == k)).map (fun p => p.2)).getD ""

/-- Decoding key/value pairs into a fresh `SiteConfig`: the three `toml:"-"`
fields keep their zero value, each persisted field is looked up by key. -/
def decodePairs (pairs : List (String × String)) : SiteConfig :=
  { ID := "", ThemeURL := "", SitePath := ""
    ThemesDir := lookupKV pairs "themesDir"
    ContentDir := lookupKV pairs "contentDir"
    LayoutDir := lookupKV pairs "layoutDir"
    PublishDir := lookupKV pairs "publishDir"
    BaseURL := lookupKV pairs "baseURL"
    LanguageCode := lookupKV pairs "languageCode"
    Title := lookupKV pairs "title"
    Theme := lookupKV pairs "theme" }

/-- `toml.DecodeFile`: fails (`none`) when the file is absent or its content
does not parse as TOML. -/
def decodeFile (fs : FS) (p : String) : Option SiteConfig :=
  match fs.fileAt p with
  | some (.kv pairs) => some (decodePairs pairs)
  | _ => none

/-- `ThemeStore.Find`: `ReadDir(StorePath/name)` succeeding is the one and
only criterion; any error yields `nil` with no error surfaced. -/
def ThemeStore.Find (s : ThemeStore) (fs : FS) (name : String) : Option Theme :=
  if fs.hasDir (joinPath s.StorePath name) then some {} else none

/-- The `git clone url dest` invocation issued by `ThemeStore.Fetch`
(the source sets no working directory on it). -/
def gitCloneInv (url dest : String) : Invocation :=
  { program := "git", args := ["clone", url, dest], workDir := none }

/-- Result of `ThemeStore.Fetch`. -/
structure FetchResult where
  theme : Option Theme
  err : Option String
  fs : FS
  invocation : Invocation
  errorLogs : List String

/-- `ThemeStore.Fetch`: run `git clone url StorePath/name`; on failure log
the captured stderr and return the error; on success return a new Theme
(the `Themes` cache is not updated by the source). -/
def ThemeStore.Fetch (s : ThemeStore) (w : World) (fs : FS) (name url : String) :
    FetchResult :=
  let themePath := joinPath s.StorePath name
  let inv := gitCloneInv url themePath
  let r := w.run inv fs
  match r.err with
  | some e =>
    { theme := none, err := some e, fs := r.fs, invocation := inv,
      errorLogs := [r.stderr] }
  | none =>
    { theme := some {}, err := none, fs := r.fs, invocation := inv,
      errorLogs := [] }

/-- The layout-computation step of `SiteStore.Create` (lines 104-111):
overwrites the five derived fields of the config. -/
def SiteStore.computeLayout (s : SiteStore) (c : SiteConfig) : SiteConfig :=
  let sitePath := joinPath s.SitePath c.ID
  { c with
    ThemesDir := s.ThemeStore.StorePath
    ContentDir := joinPath sitePath "content"
    LayoutDir := joinPath sitePath "layout"
    PublishDir := joinPath sitePath "public"
    SitePath := sitePath }

/-- The `hugo new --config configPath id` invocation issued by
`SiteStore.Create` (the source sets no working directory on it). -/
def scaffoldInv (configPath id : String) : Invocation :=
  { program := "hugo", args := ["new", "--config", configPath, id],
    workDir := none }

/-- Outcome of `SiteStore.Create`: the returned `(site, err)` pair, the
filesystem afterwards, the final value of the caller's config object, the
external invocations made, and the stderr diagnostics passed to the log. -/
structure CreateResult where
  site : Option Site
  err : Option String
  fs : FS
  config : SiteConfig
  invocations : List Invocation
  errorLogs : List String

/-- Steps 2-5 of `SiteStore.Create` (run once the theme is resolved):
layout computation, config persistence at `SitePath/id.toml`, the scaffold
invocation, and the unchecked rename into `SitePath/id/config.toml`. -/
def SiteStore.provision (s : SiteStore) (w : World) (fs : FS) (c : SiteConfig)
    (invs : List Invocation) (logs : List String) : CreateResult :=
  let config := s.computeLayout c
  let configPath := joinPath s.SitePath (c.ID ++ ".toml")
  let fs1 := fs.writeFile configPath (encodeConfig config)
  let inv := scaffoldInv configPath c.ID
  let r := w.run inv fs1
  match r.err with
  | some e =>
    { site := none, err := some e, fs := r.fs, config := config,
      invocations := invs ++ [inv], errorLogs := logs ++ [r.stderr] }
  | none =>
    { site := some { Config := config }, err := none,
      fs := r.fs.rename configPath (joinPath s.SitePath c.ID) "config.toml",
      config := config, invocations := invs ++ [inv], errorLogs := logs }

/-- `SiteStore.Create` (lines 82-146).  In the branch where the theme is
absent and `ThemeURL` is empty the source executes `return nil, err` with
the named result `err` still `nil`: both the site and the error are nil. -/
def SiteStore.Create (s : SiteStore) (w : World) (c : SiteConfig) : CreateResult :=
  match ThemeStore.Find s.ThemeStore w.fs c.Theme with
  | some _ => s.provision w w.fs c [] []
  | none =>
    if c.ThemeURL = "" then
      { site := none, err := none, fs := w.fs, config := c,
        invocations := [], errorLogs := [] }
    else
      let fr := ThemeStore.Fetch s.ThemeStore w w.fs c.Theme c.ThemeURL
      match fr.err with
      | some e =>
        { site := none, err := some e, fs := fr.fs, config := c,
          invocations := [fr.invocation], errorLogs := fr.errorLogs }
      | none => s.provision w fr.fs c [fr.invocation] []

/-- `SiteStore.Find` (lines 149-168): absent directory or undecodable config
yield `nil`; on success only `SitePath` is overwritten with the discovered
path before wrapping the decoded config in a `Site`. -/
def SiteStore.Find (s : SiteStore) (fs : FS) (id : String) : Option Site :=
  let sitePath := joinPath s.SitePath id
  if fs.hasDir sitePath then
    match decodeFile fs (joinPath sitePath "config.toml") with
    | some config => some { Config := { config with SitePath := sitePath } }
    | none => none
  else none

/-- The filesystem at the moment `Create` launches the scaffold invocation:
the initial filesystem (after the clone, when the fetch path was taken)
with the staged config file written at the store root. -/
def SiteStore.stagedFS (s : SiteStore) (w : World) (c : SiteConfig) : FS :=
  let base :=
    match ThemeStore.Find s.ThemeStore w.fs c.Theme with
    | some _ => w.fs
    | none => (ThemeStore.Fetch s.ThemeStore w w.fs c.Theme c.ThemeURL).fs
  base.writeFile (joinPath s.SitePath (c.ID ++ ".toml"))
    (encodeConfig (s.computeLayout c))

/-- `Create` reaches the provisioning steps: the theme was found locally,
or a non-empty `ThemeURL` was given and the fetch succeeded. -/
def SiteStore.reachesProvision (s : SiteStore) (w : World) (c : SiteConfig) : Prop :=
  (ThemeStore.Find s.ThemeStore w.fs c.Theme).isSome = true ∨
    (c.ThemeURL ≠ "" ∧ (ThemeStore.Fetch s.ThemeStore w w.fs c.Theme c.ThemeURL).err = none)

/-- `p` lies strictly below the directory `root`. -/
def underRoot (root p : String) : Prop :=
  ∃ rest, p = root ++ "/" ++ rest

/-! ### Helper lemmas about the filesystem model -/

lemma FS.fileAt_writeFile_self (fs : FS) (p : String) (c : FileContent) :
    (fs.writeFile p c).fileAt p = some c := by
  simp [FS.writeFile, FS.fileAt]

lemma FS.fileAt_mkDir (fs : FS) (d p : String) :
    (fs.mkDir d).fileAt p = fs.fileAt p := rfl

lemma FS.hasDir_writeFile (fs : FS) (p : String) (c : FileContent) (q : String) :
    (fs.writeFile p c).hasDir q = fs.hasDir q := rfl

lemma FS.hasDir_removeFile (fs : FS) (p q : String) :
    (fs.removeFile p).hasDir q = fs.hasDir q := rfl

lemma FS.hasDir_rename (fs : FS) (src dstDir dstName q : String) :
    (fs.rename src dstDir dstName).hasDir q = fs.hasDir q := by
  unfold FS.rename
  cases fs.fileAt src with
  | none => rfl
  | some content =>
    by_cases h : fs.hasDir dstDir = true <;>
      simp [h, FS.hasDir_writeFile, FS.hasDir_removeFile]

lemma FS.fileAt_rename_dst (fs : FS) (src dstDir dstName : String)
    (content : FileContent) (hsrc : fs.fileAt src = some content)
    (hdir : fs.hasDir dstDir = true) :
    (fs.rename src dstDir dstName).fileAt (joinPath dstDir dstName) = some content := by
  unfold FS.rename
  rw [hsrc]
  simp [hdir, FS.fileAt_writeFile_self]

/-! ### Helper lemmas about encoding and paths -/

lemma decodePairs_encodePairs (c : SiteConfig) :
    decodePairs (encodePairs c) =
      { ID := "", ThemeURL := "", SitePath := "", ThemesDir := c.ThemesDir,
        ContentDir := c.ContentDir, LayoutDir := c.LayoutDir,
        PublishDir := c.PublishDir, BaseURL := c.BaseURL,
        LanguageCode := c.LanguageCode, Title := c.Title, Theme := c.Theme } := by
  rfl

lemma underRoot_joinPath_sub (root id sub : String) (hsub : sub ≠ "") :
    underRoot root (joinPath (joinPath root id) sub) := by
  by_cases hid : id = ""
  · exact ⟨sub, by simp [joinPath, hid, hsub]⟩
  · exact ⟨id ++ "/" ++ sub, by simp [joinPath, hid, hsub, String.append_assoc]⟩

lemma underRoot_ne_empty (root p : String) (h : underRoot root p) : p ≠ "" := by
  obtain ⟨rest, hrest⟩ := h
  intro hp
  rw [hp] at hrest
  have hl := congrArg String.length hrest
  rw [String.length_append, String.length_append] at hl
  have h1 : ("" : String).length = 0 := rfl
  have h2 : ("/" : String).length = 1 := rfl
  rw [h1, h2] at hl
  omega

/-! ### Concrete demonstration environments -/

/-- A filesystem with both store roots present and no themes installed. -/
def fsEmptyStores : FS :=
  { dirs := [defaultSiteStorePath, defaultThemeStorePath], files := [] }

/-- A filesystem with both store roots and the theme `ananke` installed. -/
def fsWithAnanke : FS :=
  { dirs := [defaultSiteStorePath, defaultThemeStorePath,
             joinPath defaultThemeStorePath "ananke"],
    files := [] }

/-- A well-behaved external world: `git clone` succeeds and creates its
destination directory (third argument), `hugo new` succeeds and creates the
site directory named by its fourth argument under the default store root. -/
def runAllOk : Invocation → FS → ExecResult := fun inv fs =>
  if inv.program = "git" then
    { err := none, stdout := "", stderr := "",
      fs := fs.mkDir (inv.args.getD 2 "") }
  else
    { err := none, stdout := "", stderr := "",
      fs := fs.mkDir (joinPath defaultSiteStorePath (inv.args.getD 3 "")) }

/-- An external world where `git clone` succeeds (creating its destination)
but every `hugo` invocation fails with diagnostic output on stderr. -/
def runGitOkHugoFail : Invocation → FS → ExecResult := fun inv fs =>
  if inv.program = "git" then
    { err := none, stdout := "", stderr := "",
      fs := fs.mkDir (inv.args.getD 2 "") }
  else
    { err := some "exit status 255", stdout := "",
      stderr := "Error: scaffold failed", fs := fs }

/-- The sample config of the source's `main`, with an empty `ThemeURL`. -/
def cfgAcmeNoURL : SiteConfig :=
  { ID := "acme", ThemeURL := "", SitePath := "", ThemesDir := "",
    ContentDir := "", LayoutDir := "", PublishDir := "",
    BaseURL := "http://localhost", LanguageCode := "en-us",
    Title := "Test Site", Theme := "ananke" }

/-- The sample config with a non-empty fetch URL. -/
def cfgAcmeURL : SiteConfig :=
  { cfgAcmeNoURL with ThemeURL := "https://example.org/ananke.git" }

/-! ### Shared lemmas about the provisioning path -/

lemma provision_config_eq (s : SiteStore) (w : World) (fs : FS) (c : SiteConfig)
    (invs : List Invocation) (logs : List String) :
    (s.provision w fs c invs logs).config = s.computeLayout c ∧
    ∀ st, (s.provision w fs c invs logs).site = some st →
      st.Config = s.computeLayout c := by
  unfold SiteStore.provision
  dsimp only
  split
  · exact ⟨rfl, by intro st h; simp at h⟩
  · refine ⟨rfl, ?_⟩
    intro st h
    simp only [Option.some.injEq] at h
    rw [← h]

lemma create_reaches_config (s : SiteStore) (w : World) (c : SiteConfig)
    (h : s.reachesProvision w c) :
    (SiteStore.Create s w c).config = s.computeLayout c ∧
    ∀ st, (SiteStore.Create s w c).site = some st →
      st.Config = s.computeLayout c := by
  unfold SiteStore.Create
  cases hfind : ThemeStore.Find s.ThemeStore w.fs c.Theme with
  | some t => exact provision_config_eq s w w.fs c [] []
  | none =>
    rcases h with h | ⟨hurl, herr⟩
    · rw [hfind] at h; simp at h
    · rw [if_neg hurl]
      cases hfr : (ThemeStore.Fetch s.ThemeStore w w.fs c.Theme c.ThemeURL).err with
      | some e => rw [hfr] at herr; cases herr
      | none =>
        dsimp only
        rw [hfr]
        exact provision_config_eq s w _ c _ []

/-- C1: with a theme that has no directory under the theme-store root and an
empty `ThemeURL`, `SiteStore.Create` aborts returning no site and leaves the
filesystem untouched, but — because the source executes `return nil, err`
with the named result `err` still nil — the returned error is nil, not the
non-nil configuration error the specification promises. -/
theorem create_missing_theme_empty_url_returns_nil_error :
    (SiteStore.Create defaultSiteStore
      { fs := fsEmptyStores, run := runAllOk } cfgAcmeNoURL).site = none ∧
    (SiteStore.Create defaultSiteStore
      { fs := fsEmptyStores, run := runAllOk } cfgAcmeNoURL).err = none ∧
    (SiteStore.Create defaultSiteStore
      { fs := fsEmptyStores, run := runAllOk } cfgAcmeNoURL).fs = fsEmptyStores ∧
    (SiteStore.Create defaultSiteStore
      { fs := fsEmptyStores, run := runAllOk } cfgAcmeNoURL).invocations = [] := by
  refine ⟨rfl, rfl, by decide, rfl⟩

/-- C5: once `Create` reaches the layout-computation step, the final config
has its root set to `rootPath/ID`, its content, layout and publish
directories set to the `content`, `layout` and `public` subpaths of that
root, and its themes directory set to the ThemeStore's root — regardless of
the values the caller supplied in those five fields. -/
theorem create_layout_computation (s : SiteStore) (w : World) (c : SiteConfig)
    (h : s.reachesProvision w c) :
    (SiteStore.Create s w c).config.SitePath = joinPath s.SitePath c.ID ∧
    (SiteStore.Create s w c).config.ContentDir =
      joinPath (joinPath s.SitePath c.ID) "content" ∧
    (SiteStore.Create s w c).config.LayoutDir =
      joinPath (joinPath s.SitePath c.ID) "layout" ∧
    (SiteStore.Create s w c).config.PublishDir =
      joinPath (joinPath s.SitePath c.ID) "public" ∧
    (SiteStore.Create s w c).config.ThemesDir = s.ThemeStore.StorePath := by
  have hc := (create_reaches_config s w c h).1
  rw [hc]
  exact ⟨rfl, rfl, rfl, rfl, rfl⟩

/-- Witness for C5 at the sample site: theme present locally, benign engine. -/
theorem create_layout_computation_witness :
    (SiteStore.Create defaultSiteStore
      { fs := fsWithAnanke, run := runAllOk } cfgAcmeNoURL).config.SitePath =
        "/tmp/sites/acme" ∧
    (SiteStore.Create defaultSiteStore
      { fs := fsWithAnanke, run := runAllOk } cfgAcmeNoURL).config.ContentDir =
        "/tmp/sites/acme/content" ∧
    (SiteStore.Create defaultSiteStore
      { fs := fsWithAnanke, run := runAllOk } cfgAcmeNoURL).config.LayoutDir =
        "/tmp/sites/acme/layout" ∧
    (SiteStore.Create defaultSiteStore
      { fs := fsWithAnanke, run := runAllOk } cfgAcmeNoURL).config.PublishDir =
        "/tmp/sites/acme/public" ∧
    (SiteStore.Create defaultSiteStore
      { fs := fsWithAnanke, run := runAllOk } cfgAcmeNoURL).config.ThemesDir =
        "/tmp/themes" := by
  exact create_layout_computation defaultSiteStore
    { fs := fsWithAnanke, run := runAllOk } cfgAcmeNoURL (Or.inl (by decide))

/-- C6: decoding the encoding of a `SiteConfig` reproduces the eight
persisted fields exactly and zeroes `ID`, `ThemeURL` and `SitePath`; the
encoded form is invariant under the three unpersisted fields, i.e. they are
never written; the same round trip holds through an actual file write. -/
theorem config_toml_roundtrip (c : SiteConfig) :
    decodePairs (encodePairs c) =
      { c with ID := "", ThemeURL := "", SitePath := "" } ∧
    (∀ i u p, encodePairs { c with ID := i, ThemeURL := u, SitePath := p } =
      encodePairs c) ∧
    (∀ (fs : FS) (path : String),
      decodeFile (fs.writeFile path (encodeConfig c)) path =
        some { c with ID := "", ThemeURL := "", SitePath := "" }) := by
  refine ⟨rfl, fun i u p => rfl, fun fs path => ?_⟩
  unfold decodeFile
  rw [FS.fileAt_writeFile_self]
  rfl

/-- C10: `Create` mutates the caller's config object in place: once the
layout-computation step has run, the five derived fields hold the computed
values in the caller-visible final config, whether or not the scaffold step
later fails (no restoration on error), and a returned `Site` wraps exactly
that final config value. -/
theorem create_mutates_caller_config (s : SiteStore) (w : World) (c : SiteConfig)
    (h : s.reachesProvision w c) :
    (SiteStore.Create s w c).config = s.computeLayout c ∧
    (∀ st, (SiteStore.Create s w c).site = some st →
      st.Config = (SiteStore.Create s w c).config) := by
  obtain ⟨h1, h2⟩ := create_reaches_config s w c h
  exact ⟨h1, fun st hst => by rw [h1]; exact h2 st hst⟩

/-- Witness for C10: the engine's scaffold step fails, yet the caller's
config keeps the overwritten derived fields. -/
theorem create_mutates_caller_config_witness :
    (SiteStore.Create defaultSiteStore
      { fs := fsWithAnanke, run := runGitOkHugoFail } cfgAcmeNoURL).config =
      SiteStore.computeLayout defaultSiteStore cfgAcmeNoURL ∧
    (∀ st, (SiteStore.Create defaultSiteStore
      { fs := fsWithAnanke, run := runGitOkHugoFail } cfgAcmeNoURL).site = some st →
      st.Config = (SiteStore.Create defaultSiteStore
        { fs := fsWithAnanke, run := runGitOkHugoFail } cfgAcmeNoURL).config) := by
  exact create_mutates_caller_config defaultSiteStore
    { fs := fsWithAnanke, run := runGitOkHugoFail } cfgAcmeNoURL (Or.inl (by decide))

/-! ### The Create-then-Find reconstruction -/

/-- The scaffold engine behaves as the spec's scenario describes: a
successful `hugo new --config rootPath/id.toml id` leaves the site
directory `rootPath/id` in place and does not disturb the staged config
file.  (The engine is an opaque collaborator; this is the property of it
that site reconstruction relies on.) -/
def scaffoldWellBehaved (w : World) (s : SiteStore) (c : SiteConfig) : Prop :=
  ∀ fsx : FS,
    (w.run (scaffoldInv (joinPath s.SitePath (c.ID ++ ".toml")) c.ID) fsx).err = none →
      (w.run (scaffoldInv (joinPath s.SitePath (c.ID ++ ".toml")) c.ID) fsx).fs.hasDir
          (joinPath s.SitePath c.ID) = true ∧
      (w.run (scaffoldInv (joinPath s.SitePath (c.ID ++ ".toml")) c.ID) fsx).fs.fileAt
          (joinPath s.SitePath (c.ID ++ ".toml")) =
        fsx.fileAt (joinPath s.SitePath (c.ID ++ ".toml"))

lemma provision_find (s : SiteStore) (w : World) (fs : FS) (c : SiteConfig)
    (invs : List Invocation) (logs : List String)
    (hEng : scaffoldWellBehaved w s c)
    (hsite : (s.provision w fs c invs logs).site.isSome = true) :
    SiteStore.Find s (s.provision w fs c invs logs).fs c.ID =
      some { Config := { s.computeLayout c with ID := "", ThemeURL := "" } } := by
  unfold SiteStore.provision at hsite ⊢
  dsimp only at hsite ⊢
  rcases hr : (w.run (scaffoldInv (joinPath s.SitePath (c.ID ++ ".toml")) c.ID)
      (fs.writeFile (joinPath s.SitePath (c.ID ++ ".toml"))
        (encodeConfig (s.computeLayout c)))).err with _ | e
  · obtain ⟨hdir, hfile⟩ := hEng _ hr
    rw [FS.fileAt_writeFile_self] at hfile
    dsimp only
    unfold SiteStore.Find
    dsimp only
    rw [FS.hasDir_rename, hdir, if_pos rfl]
    have hfile2 : ((w.run (scaffoldInv (joinPath s.SitePath (c.ID ++ ".toml")) c.ID)
        (fs.writeFile (joinPath s.SitePath (c.ID ++ ".toml"))
          (encodeConfig (s.computeLayout c)))).fs.rename
        (joinPath s.SitePath (c.ID ++ ".toml"))
        (joinPath s.SitePath c.ID) "config.toml").fileAt
        (joinPath (joinPath s.SitePath c.ID) "config.toml") =
        some (.kv (encodePairs (s.computeLayout c))) :=
      FS.fileAt_rename_dst _ _ _ _ _ hfile hdir
    unfold decodeFile
    rw [hfile2]
    dsimp only
    rw [decodePairs_encodePairs]
    simp [SiteStore.computeLayout]
  · rw [hr] at hsite
    simp at hsite

lemma create_find_value (s : SiteStore) (w : World) (c : SiteConfig)
    (hEng : scaffoldWellBehaved w s c)
    (hsite : (SiteStore.Create s w c).site.isSome = true) :
    SiteStore.Find s (SiteStore.Create s w c).fs c.ID =
      some { Config := { s.computeLayout c with ID := "", ThemeURL := "" } } := by
  unfold SiteStore.Create at hsite ⊢
  cases hfind : ThemeStore.Find s.ThemeStore w.fs c.Theme with
  | some t =>
    rw [hfind] at hsite
    dsimp only at hsite ⊢
    exact provision_find s w w.fs c [] [] hEng hsite
  | none =>
    rw [hfind] at hsite
    dsimp only at hsite ⊢
    by_cases hurl : c.ThemeURL = ""
    · rw [if_pos hurl] at hsite; simp at hsite
    · rw [if_neg hurl] at hsite ⊢
      cases hfr : (ThemeStore.Fetch s.ThemeStore w w.fs c.Theme c.ThemeURL).err with
      | some e =>
        rw [hfr] at hsite
        simp at hsite
      | none =>
        rw [hfr] at hsite
        dsimp only at hsite ⊢
        exact provision_find s w _ c _ [] hEng hsite

/-- A world with the theme `ananke` installed and well-behaved engines. -/
def worldOkAnanke : World := { fs := fsWithAnanke, run := runAllOk }

lemma scaffoldWellBehaved_worldOkAnanke :
    scaffoldWellBehaved worldOkAnanke defaultSiteStore cfgAcmeNoURL := by
  intro fsx h
  refine ⟨?_, rfl⟩
  show (fsx.mkDir (joinPath defaultSiteStorePath "acme")).hasDir
    (joinPath defaultSiteStorePath "acme") = true
  simp [FS.mkDir, FS.hasDir]

/-- C2 (amended): after a successful `Create`, `Find` with the same ID
returns a site whose metadata (base URL, language code, title, theme name)
equals the input config's; its content, layout and publish directories are
the computed non-empty subpaths rooted under the site-store root, its root
directory is `rootPath/ID` (under the root whenever the ID is non-empty) —
but its themes directory equals the THEME-store root, not a path under the
site-store root. -/
theorem create_then_find_reconstructs (s : SiteStore) (w : World) (c : SiteConfig)
    (hEng : scaffoldWellBehaved w s c)
    (hsite : (SiteStore.Create s w c).site.isSome = true) :
    ∃ found, SiteStore.Find s (SiteStore.Create s w c).fs c.ID = some found ∧
      found.Config.BaseURL = c.BaseURL ∧
      found.Config.LanguageCode = c.LanguageCode ∧
      found.Config.Title = c.Title ∧
      found.Config.Theme = c.Theme ∧
      found.Config.ThemesDir = s.ThemeStore.StorePath ∧
      found.Config.SitePath = joinPath s.SitePath c.ID ∧
      found.Config.ContentDir = joinPath (joinPath s.SitePath c.ID) "content" ∧
      found.Config.LayoutDir = joinPath (joinPath s.SitePath c.ID) "layout" ∧
      found.Config.PublishDir = joinPath (joinPath s.SitePath c.ID) "public" ∧
      underRoot s.SitePath found.Config.ContentDir ∧
      underRoot s.SitePath found.Config.LayoutDir ∧
      underRoot s.SitePath found.Config.PublishDir ∧
      found.Config.ContentDir ≠ "" ∧
      found.Config.LayoutDir ≠ "" ∧
      found.Config.PublishDir ≠ "" ∧
      (c.ID ≠ "" → underRoot s.SitePath found.Config.SitePath) := by
  refine ⟨_, create_find_value s w c hEng hsite, rfl, rfl, rfl, rfl, rfl, rfl,
    rfl, rfl, rfl,
    underRoot_joinPath_sub s.SitePath c.ID "content" (by decide),
    underRoot_joinPath_sub s.SitePath c.ID "layout" (by decide),
    underRoot_joinPath_sub s.SitePath c.ID "public" (by decide),
    underRoot_ne_empty _ _ (underRoot_joinPath_sub s.SitePath c.ID "content" (by decide)),
    underRoot_ne_empty _ _ (underRoot_joinPath_sub s.SitePath c.ID "layout" (by decide)),
    underRoot_ne_empty _ _ (underRoot_joinPath_sub s.SitePath c.ID "public" (by decide)),
    fun hid => ⟨c.ID, by simp [joinPath, hid, SiteStore.computeLayout]⟩⟩

/-- Witness for C2 at the sample site with benign engines. -/
theorem create_then_find_reconstructs_witness :
    ∃ found, SiteStore.Find defaultSiteStore
        (SiteStore.Create defaultSiteStore worldOkAnanke cfgAcmeNoURL).fs
        "acme" = some found ∧
      found.Config.BaseURL = "http://localhost" ∧
      found.Config.LanguageCode = "en-us" ∧
      found.Config.Title = "Test Site" ∧
      found.Config.Theme = "ananke" ∧
      found.Config.ThemesDir = "/tmp/themes" ∧
      found.Config.SitePath = "/tmp/sites/acme" ∧
      found.Config.ContentDir = "/tmp/sites/acme/content" ∧
      found.Config.LayoutDir = "/tmp/sites/acme/layout" ∧
      found.Config.PublishDir = "/tmp/sites/acme/public" ∧
      underRoot "/tmp/sites" found.Config.ContentDir ∧
      underRoot "/tmp/sites" found.Config.LayoutDir ∧
      underRoot "/tmp/sites" found.Config.PublishDir ∧
      found.Config.ContentDir ≠ "" ∧
      found.Config.LayoutDir ≠ "" ∧
      found.Config.PublishDir ≠ "" ∧
      ("acme" ≠ "" → underRoot "/tmp/sites" found.Config.SitePath) :=
  create_then_find_reconstructs defaultSiteStore worldOkAnanke cfgAcmeNoURL
    scaffoldWellBehaved_worldOkAnanke (by decide)

/-- C2 (counterexample): on the program's default store roots, the themes
directory of the site reconstructed right after a successful `Create` is
the theme-store root `/tmp/themes`, which is NOT rooted under the
site-store root `/tmp/sites` — refuting "derived directory fields are all
rooted under the site-store root". -/
theorem create_then_find_themesDir_outside_store_root :
    (SiteStore.Create defaultSiteStore worldOkAnanke cfgAcmeNoURL).site.isSome = true ∧
    (SiteStore.Find defaultSiteStore
      (SiteStore.Create defaultSiteStore worldOkAnanke cfgAcmeNoURL).fs "acme").map
        (fun st => st.Config.ThemesDir) = some defaultThemeStorePath ∧
    ¬ underRoot defaultSiteStorePath defaultThemeStorePath := by
  refine ⟨by decide, by decide, ?_⟩
  rintro ⟨rest, hrest⟩
  have h : ("/tmp/themes" : String) = "/tmp/sites" ++ "/" ++ rest := hrest
  have hl := congrArg String.length h
  have h1 : ("/tmp/themes" : String).length = 11 := rfl
  have h2 : ("/tmp/sites" : String).length = 10 := rfl
  have h3 : ("/" : String).length = 1 := rfl
  rw [String.length_append, String.length_append, h1, h2, h3] at hl
  have h0 : rest.length = 0 := by omega
  have hrest0 : rest = "" := by
    cases rest with
    | mk data => simp [String.length] at h0; simp [h0]
  rw [hrest0] at h
  exact absurd h (by decide)

/-! ### The scaffold invocation contract -/

lemma provision_invocations (s : SiteStore) (w : World) (fs : FS) (c : SiteConfig)
    (invs : List Invocation) (logs : List String) :
    (s.provision w fs c invs logs).invocations =
      invs ++ [scaffoldInv (joinPath s.SitePath (c.ID ++ ".toml")) c.ID] ∧
    ∀ e, (w.run (scaffoldInv (joinPath s.SitePath (c.ID ++ ".toml")) c.ID)
        (fs.writeFile (joinPath s.SitePath (c.ID ++ ".toml"))
          (encodeConfig (s.computeLayout c)))).err = some e →
      (s.provision w fs c invs logs).site = none ∧
      (s.provision w fs c invs logs).err = some e ∧
      (s.provision w fs c invs logs).errorLogs =
        logs ++ [(w.run (scaffoldInv (joinPath s.SitePath (c.ID ++ ".toml")) c.ID)
          (fs.writeFile (joinPath s.SitePath (c.ID ++ ".toml"))
            (encodeConfig (s.computeLayout c)))).stderr] := by
  unfold SiteStore.provision
  dsimp only
  rcases hr : (w.run (scaffoldInv (joinPath s.SitePath (c.ID ++ ".toml")) c.ID)
      (fs.writeFile (joinPath s.SitePath (c.ID ++ ".toml"))
        (encodeConfig (s.computeLayout c)))).err with _ | e
  · exact ⟨rfl, fun e he => by cases he⟩
  · refine ⟨rfl, fun e2 he => ?_⟩
    obtain rfl : e = e2 := by injection he
    exact ⟨rfl, rfl, rfl⟩

/-- C3 (amended): every `Create` that reaches provisioning issues the
scaffold invocation `hugo new --config rootPath/ID.toml ID` — the persisted
config path and the site ID as arguments — but with NO working directory
set on the command (it inherits the process cwd); a failed invocation
aborts creation returning the invocation's own error, with the engine's
captured stderr recorded on the diagnostic log (not attached to the
returned error). -/
theorem scaffold_invocation_contract (s : SiteStore) (w : World) (c : SiteConfig)
    (h : s.reachesProvision w c) :
    scaffoldInv (joinPath s.SitePath (c.ID ++ ".toml")) c.ID ∈
      (SiteStore.Create s w c).invocations ∧
    (scaffoldInv (joinPath s.SitePath (c.ID ++ ".toml")) c.ID).program = "hugo" ∧
    (scaffoldInv (joinPath s.SitePath (c.ID ++ ".toml")) c.ID).args =
      ["new", "--config", joinPath s.SitePath (c.ID ++ ".toml"), c.ID] ∧
    (scaffoldInv (joinPath s.SitePath (c.ID ++ ".toml")) c.ID).workDir = none ∧
    ∀ e, (w.run (scaffoldInv (joinPath s.SitePath (c.ID ++ ".toml")) c.ID)
        (s.stagedFS w c)).err = some e →
      (SiteStore.Create s w c).site = none ∧
      (SiteStore.Create s w c).err = some e ∧
      (SiteStore.Create s w c).errorLogs =
        [(w.run (scaffoldInv (joinPath s.SitePath (c.ID ++ ".toml")) c.ID)
          (s.stagedFS w c)).stderr] := by
  unfold SiteStore.Create SiteStore.stagedFS
  cases hfind : ThemeStore.Find s.ThemeStore w.fs c.Theme with
  | some t =>
    dsimp only
    obtain ⟨hinv, herr⟩ := provision_invocations s w w.fs c [] []
    refine ⟨?_, rfl, rfl, rfl, fun e he => herr e he⟩
    rw [hinv]; simp
  | none =>
    dsimp only
    rcases h with h | ⟨hurl, hferr⟩
    · rw [hfind] at h; simp at h
    · rw [if_neg hurl]
      cases hfr : (ThemeStore.Fetch s.ThemeStore w w.fs c.Theme c.ThemeURL).err with
      | some e0 => rw [hfr] at hferr; cases hferr
      | none =>
        dsimp only
        obtain ⟨hinv, herr⟩ := provision_invocations s w
          (ThemeStore.Fetch s.ThemeStore w w.fs c.Theme c.ThemeURL).fs c
          [(ThemeStore.Fetch s.ThemeStore w w.fs c.Theme c.ThemeURL).invocation] []
        refine ⟨?_, rfl, rfl, rfl, fun e he => herr e he⟩
        rw [hinv]; simp

/-- A world with the theme installed whose scaffold invocations fail. -/
def worldFailScaffold : World := { fs := fsWithAnanke, run := runGitOkHugoFail }

/-- Witness for C3: a concrete run whose scaffold invocation fails. -/
theorem scaffold_invocation_contract_witness :
    scaffoldInv "/tmp/sites/acme.toml" "acme" ∈
      (SiteStore.Create defaultSiteStore worldFailScaffold cfgAcmeNoURL).invocations ∧
    (scaffoldInv "/tmp/sites/acme.toml" "acme").program = "hugo" ∧
    (scaffoldInv "/tmp/sites/acme.toml" "acme").args =
      ["new", "--config", "/tmp/sites/acme.toml", "acme"] ∧
    (scaffoldInv "/tmp/sites/acme.toml" "acme").workDir = none ∧
    (∀ e, (worldFailScaffold.run (scaffoldInv "/tmp/sites/acme.toml" "acme")
        (SiteStore.stagedFS defaultSiteStore worldFailScaffold cfgAcmeNoURL)).err = some e →
      (SiteStore.Create defaultSiteStore worldFailScaffold cfgAcmeNoURL).site = none ∧
      (SiteStore.Create defaultSiteStore worldFailScaffold cfgAcmeNoURL).err = some e ∧
      (SiteStore.Create defaultSiteStore worldFailScaffold cfgAcmeNoURL).errorLogs =
        [(worldFailScaffold.run (scaffoldInv "/tmp/sites/acme.toml" "acme")
          (SiteStore.stagedFS defaultSiteStore worldFailScaffold cfgAcmeNoURL)).stderr]) :=
  scaffold_invocation_contract defaultSiteStore worldFailScaffold cfgAcmeNoURL
    (Or.inl (by decide))

/-- C3 (counterexample): the one scaffold invocation of a concrete
successful `Create` carries no working directory at all — in particular its
working directory is not the site-store root, refuting the claimed
"working directory set to the store root". -/
theorem scaffold_invocation_workdir_not_store_root :
    (SiteStore.Create defaultSiteStore worldOkAnanke cfgAcmeNoURL).invocations =
      [scaffoldInv "/tmp/sites/acme.toml" "acme"] ∧
    (scaffoldInv "/tmp/sites/acme.toml" "acme").workDir = none ∧
    (scaffoldInv "/tmp/sites/acme.toml" "acme").workDir ≠ some defaultSiteStorePath := by
  decide

/-! ### What Find recomputes -/

/-- Persisted pairs whose derived-layout values are all stale. -/
def stalePairs : List (String × String) :=
  [("themesDir", "/stale/themes"), ("contentDir", "/stale/content"),
   ("layoutDir", "/stale/layout"), ("publishDir", "/stale/public"),
   ("baseURL", "http://localhost"), ("languageCode", "en-us"),
   ("title", "Test Site"), ("theme", "ananke")]

/-- A filesystem holding the site `acme` with a stale persisted config. -/
def fsStaleConfig : FS :=
  { dirs := [defaultSiteStorePath, joinPath defaultSiteStorePath "acme"],
    files := [(joinPath (joinPath defaultSiteStorePath "acme") "config.toml",
      .kv stalePairs)] }

/-- C4 (amended): `Find` recomputes ONLY the root-directory field
(`SitePath`), overwriting it with the discovered path; the four other
derived layout fields are taken verbatim from the persisted file. -/
theorem find_recomputes_only_root (s : SiteStore) (fs : FS) (id : String)
    (pairs : List (String × String))
    (hdir : fs.hasDir (joinPath s.SitePath id) = true)
    (hfile : fs.fileAt (joinPath (joinPath s.SitePath id) "config.toml") =
      some (.kv pairs)) :
    SiteStore.Find s fs id =
      some { Config := { decodePairs pairs with
        SitePath := joinPath s.SitePath id } } := by
  unfold SiteStore.Find
  dsimp only
  rw [hdir, if_pos rfl]
  unfold decodeFile
  rw [hfile]

/-- Witness for C4: `Find` over a stale persisted config. -/
theorem find_recomputes_only_root_witness :
    SiteStore.Find defaultSiteStore fsStaleConfig "acme" =
      some { Config := { decodePairs stalePairs with
        SitePath := joinPath defaultSiteStorePath "acme" } } :=
  find_recomputes_only_root defaultSiteStore fsStaleConfig "acme" stalePairs
    (by decide) (by decide)

/-- C4 (counterexample): with stale derived values in the on-disk config,
the site returned by `Find` carries the stale persisted content and themes
directories — NOT recomputed values — while only the root-directory field
is overwritten with the discovered path. -/
theorem find_trusts_persisted_dirs :
    (SiteStore.Find defaultSiteStore fsStaleConfig "acme").map
      (fun st => st.Config.ContentDir) = some "/stale/content" ∧
    "/stale/content" ≠ joinPath (joinPath defaultSiteStorePath "acme") "content" ∧
    (SiteStore.Find defaultSiteStore fsStaleConfig "acme").map
      (fun st => st.Config.ThemesDir) = some "/stale/themes" ∧
    "/stale/themes" ≠ defaultThemeStorePath ∧
    (SiteStore.Find defaultSiteStore fsStaleConfig "acme").map
      (fun st => st.Config.SitePath) = some (joinPath defaultSiteStorePath "acme") := by
  decide

/-! ### Store lookups never surface errors -/

/-- A filesystem holding the site directory `acme` but no config file. -/
def fsDirNoConfig : FS :=
  { dirs := [defaultSiteStorePath, joinPath defaultSiteStorePath "acme"],
    files := [] }

/-- A filesystem holding the site `acme` with an undecodable config file. -/
def fsCorruptConfig : FS :=
  { dirs := [defaultSiteStorePath, joinPath defaultSiteStorePath "acme"],
    files := [(joinPath (joinPath defaultSiteStorePath "acme") "config.toml",
      .invalid)] }

/-- C8: the store lookups return only a present/absent result (their
signatures carry no error): an absent site directory, a missing config
file, and an undecodable config file all make `SiteStore.Find` answer
absent, and an absent theme directory (which also covers any stat error,
since `FS.hasDir` models "ReadDir succeeds") makes `ThemeStore.Find`
answer absent. -/
theorem store_lookups_never_error (s : SiteStore) (ts : ThemeStore) (fs : FS)
    (id name : String) :
    (fs.hasDir (joinPath s.SitePath id) = false → SiteStore.Find s fs id = none) ∧
    (fs.fileAt (joinPath (joinPath s.SitePath id) "config.toml") = none →
      SiteStore.Find s fs id = none) ∧
    (fs.fileAt (joinPath (joinPath s.SitePath id) "config.toml") =
        some .invalid → SiteStore.Find s fs id = none) ∧
    (fs.hasDir (joinPath ts.StorePath name) = false →
      ThemeStore.Find ts fs name = none) := by
  refine ⟨?_, ?_, ?_, ?_⟩
  · intro h
    unfold SiteStore.Find
    dsimp only
    rw [h]
    rfl
  · intro h
    unfold SiteStore.Find
    dsimp only
    by_cases hd : fs.hasDir (joinPath s.SitePath id) = true
    · rw [hd, if_pos rfl]
      unfold decodeFile
      rw [h]
    · rw [Bool.not_eq_true] at hd
      rw [hd]
      rfl
  · intro h
    unfold SiteStore.Find
    dsimp only
    by_cases hd : fs.hasDir (joinPath s.SitePath id) = true
    · rw [hd, if_pos rfl]
      unfold decodeFile
      rw [h]
    · rw [Bool.not_eq_true] at hd
      rw [hd]
      rfl
  · intro h
    unfold ThemeStore.Find
    rw [h]
    rfl

/-- Witness for C8: all four absent/corrupt cases at concrete inputs. -/
theorem store_lookups_never_error_witness :
    SiteStore.Find defaultSiteStore fsEmptyStores "ghost" = none ∧
    SiteStore.Find defaultSiteStore fsDirNoConfig "acme" = none ∧
    SiteStore.Find defaultSiteStore fsCorruptConfig "acme" = none ∧
    ThemeStore.Find defaultThemeStore fsEmptyStores "ghost" = none :=
  ⟨(store_lookups_never_error defaultSiteStore defaultThemeStore fsEmptyStores
      "ghost" "ghost").1 (by decide),
   (store_lookups_never_error defaultSiteStore defaultThemeStore fsDirNoConfig
      "acme" "ghost").2.1 (by decide),
   (store_lookups_never_error defaultSiteStore defaultThemeStore fsCorruptConfig
      "acme" "ghost").2.2.1 (by decide),
   (store_lookups_never_error defaultSiteStore defaultThemeStore fsEmptyStores
      "ghost" "ghost").2.2.2 (by decide)⟩

/-! ### Theme lookup versus directory existence -/

/-- C9 (amended): for every NON-EMPTY theme name, `ThemeStore.Find` answers
present exactly when the (readable) directory `StorePath/name` exists. -/
theorem theme_find_present_iff_dir (ts : ThemeStore) (fs : FS) (name : String)
    (h : name ≠ "") :
    (ThemeStore.Find ts fs name).isSome =
      fs.hasDir (ts.StorePath ++ "/" ++ name) := by
  unfold ThemeStore.Find joinPath
  rw [if_neg h]
  cases hd : fs.hasDir (ts.StorePath ++ "/" ++ name) <;> simp [hd]

/-- Witness for C9 at a present and an absent concrete name. -/
theorem theme_find_present_iff_dir_witness :
    (ThemeStore.Find defaultThemeStore fsWithAnanke "ananke").isSome =
      fsWithAnanke.hasDir ("/tmp/themes" ++ "/" ++ "ananke") ∧
    (ThemeStore.Find defaultThemeStore fsWithAnanke "ghost").isSome =
      fsWithAnanke.hasDir ("/tmp/themes" ++ "/" ++ "ghost") :=
  ⟨theme_find_present_iff_dir defaultThemeStore fsWithAnanke "ananke" (by decide),
   theme_find_present_iff_dir defaultThemeStore fsWithAnanke "ghost" (by decide)⟩

/-- C9 (counterexample): at the empty name, `ThemeStore.Find` stats the
store root itself (`filepath.Join(root, "")` cleans to `root`) and answers
present, although no subdirectory named `""` exists under the root. -/
theorem theme_find_empty_name_present_without_dir :
    ThemeStore.Find defaultThemeStore fsEmptyStores "" = some {} ∧
    fsEmptyStores.hasDir (defaultThemeStorePath ++ "/" ++ "") = false := by
  decide

/-! ### The fetch contract -/

lemma fetch_components (s : ThemeStore) (w : World) (fs : FS) (name url : String) :
    (ThemeStore.Fetch s w fs name url).err =
      (w.run (gitCloneInv url (joinPath s.StorePath name)) fs).err ∧
    (ThemeStore.Fetch s w fs name url).fs =
      (w.run (gitCloneInv url (joinPath s.StorePath name)) fs).fs ∧
    (ThemeStore.Fetch s w fs name url).invocation =
      gitCloneInv url (joinPath s.StorePath name) := by
  unfold ThemeStore.Fetch
  dsimp only
  rcases hr : (w.run (gitCloneInv url (joinPath s.StorePath name)) fs).err with _ | e
  · exact ⟨rfl, rfl, rfl⟩
  · exact ⟨rfl, rfl, rfl⟩

lemma provision_site_isSome (s : SiteStore) (w : World) (fs : FS) (c : SiteConfig)
    (invs : List Invocation) (logs : List String) :
    (s.provision w fs c invs logs).site.isSome = true ↔
    (w.run (scaffoldInv (joinPath s.SitePath (c.ID ++ ".toml")) c.ID)
      (fs.writeFile (joinPath s.SitePath (c.ID ++ ".toml"))
        (encodeConfig (s.computeLayout c)))).err = none := by
  unfold SiteStore.provision
  dsimp only
  rcases hr : (w.run (scaffoldInv (joinPath s.SitePath (c.ID ++ ".toml")) c.ID)
      (fs.writeFile (joinPath s.SitePath (c.ID ++ ".toml"))
        (encodeConfig (s.computeLayout c)))).err with _ | e
  · simp
  · simp

lemma create_fetch_branch (s : SiteStore) (w : World) (c : SiteConfig)
    (habs : ThemeStore.Find s.ThemeStore w.fs c.Theme = none)
    (hurl : c.ThemeURL ≠ "") :
    SiteStore.Create s w c =
      (match (ThemeStore.Fetch s.ThemeStore w w.fs c.Theme c.ThemeURL).err with
       | some e =>
         { site := none, err := some e,
           fs := (ThemeStore.Fetch s.ThemeStore w w.fs c.Theme c.ThemeURL).fs,
           config := c,
           invocations :=
             [(ThemeStore.Fetch s.ThemeStore w w.fs c.Theme c.ThemeURL).invocation],
           errorLogs :=
             (ThemeStore.Fetch s.ThemeStore w w.fs c.Theme c.ThemeURL).errorLogs }
       | none =>
         s.provision w (ThemeStore.Fetch s.ThemeStore w w.fs c.Theme c.ThemeURL).fs c
           [(ThemeStore.Fetch s.ThemeStore w w.fs c.Theme c.ThemeURL).invocation] []) := by
  unfold SiteStore.Create
  rw [habs]
  dsimp only
  rw [if_neg hurl]

lemma stagedFS_fetch (s : SiteStore) (w : World) (c : SiteConfig)
    (habs : ThemeStore.Find s.ThemeStore w.fs c.Theme = none) :
    s.stagedFS w c =
      (ThemeStore.Fetch s.ThemeStore w w.fs c.Theme c.ThemeURL).fs.writeFile
        (joinPath s.SitePath (c.ID ++ ".toml"))
        (encodeConfig (s.computeLayout c)) := by
  unfold SiteStore.stagedFS
  rw [habs]

lemma create_theme_found_invocations (s : SiteStore) (w2 : World) (c2 : SiteConfig)
    (hdir : w2.fs.hasDir (joinPath s.ThemeStore.StorePath c2.Theme) = true) :
    (SiteStore.Create s w2 c2).invocations =
      [scaffoldInv (joinPath s.SitePath (c2.ID ++ ".toml")) c2.ID] := by
  unfold SiteStore.Create
  have hfind : ThemeStore.Find s.ThemeStore w2.fs c2.Theme = some {} := by
    unfold ThemeStore.Find
    rw [hdir, if_pos rfl]
  rw [hfind]
  dsimp only
  exact (provision_invocations s w2 w2.fs c2 [] []).1

/-- C7 (amended): with the theme absent locally and a non-empty fetch URL,
`Create` performs exactly one fetch invocation and succeeds if and only if
BOTH that fetch and the subsequent scaffold invocation succeed (a
successful fetch alone does not guarantee success); and any `Create` run
while the theme's directory exists locally — as after a successful fetch
that populated it — issues only `hugo` invocations, never a `git` fetch. -/
theorem create_fetch_contract (s : SiteStore) (w : World) (c : SiteConfig)
    (habs : ThemeStore.Find s.ThemeStore w.fs c.Theme = none)
    (hurl : c.ThemeURL ≠ "") :
    ((SiteStore.Create s w c).site.isSome = true ↔
      ((w.run (gitCloneInv c.ThemeURL (joinPath s.ThemeStore.StorePath c.Theme))
          w.fs).err = none ∧
       (w.run (scaffoldInv (joinPath s.SitePath (c.ID ++ ".toml")) c.ID)
          (s.stagedFS w c)).err = none)) ∧
    ((SiteStore.Create s w c).invocations =
        [gitCloneInv c.ThemeURL (joinPath s.ThemeStore.StorePath c.Theme)] ∨
     (SiteStore.Create s w c).invocations =
        [gitCloneInv c.ThemeURL (joinPath s.ThemeStore.StorePath c.Theme),
         scaffoldInv (joinPath s.SitePath (c.ID ++ ".toml")) c.ID]) ∧
    (∀ (w2 : World) (c2 : SiteConfig),
      w2.fs.hasDir (joinPath s.ThemeStore.StorePath c2.Theme) = true →
      ∀ i ∈ (SiteStore.Create s w2 c2).invocations, i.program = "hugo") := by
  obtain ⟨hfe, hff, hfi⟩ := fetch_components s.ThemeStore w w.fs c.Theme c.ThemeURL
  have hcb := create_fetch_branch s w c habs hurl
  have hsf := stagedFS_fetch s w c habs
  refine ⟨?_, ?_, ?_⟩
  · rw [hcb, hsf, ← hfe]
    cases hfr : (ThemeStore.Fetch s.ThemeStore w w.fs c.Theme c.ThemeURL).err with
    | some e => simp
    | none =>
      rw [provision_site_isSome]
      simp
  · rw [hcb]
    cases hfr : (ThemeStore.Fetch s.ThemeStore w w.fs c.Theme c.ThemeURL).err with
    | some e => exact Or.inl (by rw [hfi])
    | none =>
      right
      rw [(provision_invocations s w
        (ThemeStore.Fetch s.ThemeStore w w.fs c.Theme c.ThemeURL).fs c
        [(ThemeStore.Fetch s.ThemeStore w w.fs c.Theme c.ThemeURL).invocation] []).1,
        hfi]
      rfl
  · intro w2 c2 h2 i hi
    rw [create_theme_found_invocations s w2 c2 h2] at hi
    simp at hi
    rw [hi]
    rfl

/-- A world with no themes installed and well-behaved engines. -/
def worldFetchEmpty : World := { fs := fsEmptyStores, run := runAllOk }

/-- A world with no themes where the clone succeeds but the scaffold fails. -/
def worldFetchOkScaffoldFail : World :=
  { fs := fsEmptyStores, run := runGitOkHugoFail }

/-- Witness for C7: theme absent, valid URL, both engines succeed. -/
theorem create_fetch_contract_witness :
    ((SiteStore.Create defaultSiteStore worldFetchEmpty cfgAcmeURL).site.isSome = true ↔
      ((worldFetchEmpty.run (gitCloneInv cfgAcmeURL.ThemeURL
          (joinPath defaultThemeStorePath "ananke")) worldFetchEmpty.fs).err = none ∧
       (worldFetchEmpty.run (scaffoldInv (joinPath defaultSiteStorePath "acme.toml")
          "acme") (SiteStore.stagedFS defaultSiteStore worldFetchEmpty cfgAcmeURL)).err =
          none)) ∧
    ((SiteStore.Create defaultSiteStore worldFetchEmpty cfgAcmeURL).invocations =
        [gitCloneInv cfgAcmeURL.ThemeURL (joinPath defaultThemeStorePath "ananke")] ∨
     (SiteStore.Create defaultSiteStore worldFetchEmpty cfgAcmeURL).invocations =
        [gitCloneInv cfgAcmeURL.ThemeURL (joinPath defaultThemeStorePath "ananke"),
         scaffoldInv (joinPath defaultSiteStorePath "acme.toml") "acme"]) ∧
    (∀ (w2 : World) (c2 : SiteConfig),
      w2.fs.hasDir (joinPath defaultThemeStorePath c2.Theme) = true →
      ∀ i ∈ (SiteStore.Create defaultSiteStore w2 c2).invocations,
        i.program = "hugo") :=
  create_fetch_contract defaultSiteStore worldFetchEmpty cfgAcmeURL
    (by decide) (by decide)

/-- C7 (counterexample): the fetch invocation succeeds (and the theme is
absent locally, the URL non-empty), yet `Create` fails because the
subsequent scaffold invocation fails — refuting "Create succeeds if and
only if the single fetch invocation succeeds". -/
theorem create_fetch_ok_but_create_fails :
    ThemeStore.Find defaultThemeStore worldFetchOkScaffoldFail.fs "ananke" = none ∧
    cfgAcmeURL.ThemeURL ≠ "" ∧
    (worldFetchOkScaffoldFail.run (gitCloneInv cfgAcmeURL.ThemeURL
      (joinPath defaultThemeStorePath "ananke")) worldFetchOkScaffoldFail.fs).err =
      none ∧
    (SiteStore.Create defaultSiteStore worldFetchOkScaffoldFail cfgAcmeURL).site =
      none ∧
    (SiteStore.Create defaultSiteStore worldFetchOkScaffoldFail cfgAcmeURL).err =
      some "exit status 255" := by
  decide
